import Mathlib

/-!
Verification of the typed value model and binary wire codec of
`go_container_system`.

The definitions below are a shallow embedding of the Go source:

* `ValueType` embeds the `ValueType` enumeration of
  `container/core` (wire codes 0–15, `String`, `ParseValueType`,
  `IsNumeric`).
* `GoVal` embeds the concrete value structs of `container/values`
  (`NullValue`, `BoolValue`, `Int16Value`, …, `ArrayValue`) together
  with the bare `core.BaseValue` carrying a `NullValue` tag that
  `GetChild` returns for an absent child.  Go strings and byte slices
  are embedded as `List Nat` byte lists; `float32`/`float64` payloads
  are embedded by their IEEE bit patterns (the codec only ever moves
  the bits, so no floating-point arithmetic is modelled).
* `baseData` embeds the `data` field that each constructor stores into
  the embedded `core.BaseValue`.
* `GoVal.ToBytes` embeds the `ToBytes` dispatch: `BoolValue`,
  `BytesValue`, `StringValue` and `ArrayValue` override `ToBytes` with
  the full `[type][name_len][name][value_size][payload]` header; every
  other type inherits `core.BaseValue.ToBytes`, which returns the raw
  `data` field only.
* `deserializeValue` and `DeserializeArrayValue` embed the decoder in
  `container/values/array_value.go`.  Go slice/index expressions whose
  bounds the source does not check are embedded with an explicit
  bounds test that yields the dedicated result `DOut.panics` exactly
  when the Go expression would panic at run time.

Machine integers are embedded as `Nat`/`Int` with explicit reductions
modulo `2^w` where Go conversion/truncation happens.
-/

namespace GoContainerSystem

/-- The `ValueType` enumeration of `container/core` (value_types source
file).  Constructor order mirrors the Go `iota` block, so the wire code
of each kind is its position: Null=0, Bool=1, …, Array=15. -/
inductive ValueType where
  | NullValue
  | BoolValue
  | ShortValue
  | UShortValue
  | IntValue
  | UIntValue
  | LongValue
  | ULongValue
  | LLongValue
  | ULLongValue
  | FloatValue
  | DoubleValue
  | BytesValue
  | StringValue
  | ContainerValue
  | ArrayValue
  deriving DecidableEq, Repr

/-- The numeric value of a `ValueType` constant (Go's `iota` value),
which is also its binary wire code. -/
def ValueType.code : ValueType → Nat
  | .NullValue => 0
  | .BoolValue => 1
  | .ShortValue => 2
  | .UShortValue => 3
  | .IntValue => 4
  | .UIntValue => 5
  | .LongValue => 6
  | .ULongValue => 7
  | .LLongValue => 8
  | .ULLongValue => 9
  | .FloatValue => 10
  | .DoubleValue => 11
  | .BytesValue => 12
  | .StringValue => 13
  | .ContainerValue => 14
  | .ArrayValue => 15

/-- Embeds `BaseValue.IsNumeric` from `container/core`:
`v.vtype >= ShortValue && v.vtype <= DoubleValue`, comparing the
enumeration's numeric values. -/
def IsNumeric (t : ValueType) : Bool :=
  decide (ValueType.code .ShortValue ≤ t.code) &&
    decide (t.code ≤ ValueType.code .DoubleValue)

/-- Embeds `ParseValueType` from `container/core`: string form of a wire code
back to a `ValueType`; any unrecognised string falls through to
`NullValue`. -/
def ParseValueType (s : String) : ValueType :=
  if s = "0" then .NullValue
  else if s = "1" then .BoolValue
  else if s = "2" then .ShortValue
  else if s = "3" then .UShortValue
  else if s = "4" then .IntValue
  else if s = "5" then .UIntValue
  else if s = "6" then .LongValue
  else if s = "7" then .ULongValue
  else if s = "8" then .LLongValue
  else if s = "9" then .ULLongValue
  else if s = "10" then .FloatValue
  else if s = "11" then .DoubleValue
  else if s = "12" then .BytesValue
  else if s = "13" then .StringValue
  else if s = "14" then .ContainerValue
  else if s = "15" then .ArrayValue
  else .NullValue

/-! ### Byte-level helpers (little-endian, as in the Go source) -/

/-- Little-endian 2-byte encoding of the low 16 bits of `n`
(`binary.LittleEndian.PutUint16`). -/
def u16le (n : Nat) : List Nat :=
  [n % 256, n / 256 % 256]

/-- Little-endian 4-byte encoding of the low 32 bits of `n`
(`binary.LittleEndian.PutUint32` / the manual `byte(x>>8)&0xFF`
sequences in the source). -/
def u32le (n : Nat) : List Nat :=
  [n % 256, n / 256 % 256, n / 65536 % 256, n / 16777216 % 256]

/-- Little-endian 8-byte encoding of the low 64 bits of `n`
(`binary.LittleEndian.PutUint64`). -/
def u64le (n : Nat) : List Nat :=
  [n % 256, n / 256 % 256, n / 65536 % 256, n / 16777216 % 256,
   n / 4294967296 % 256, n / 1099511627776 % 256,
   n / 281474976710656 % 256, n / 72057594037927936 % 256]

/-- The unsigned 2^w bit pattern of a signed Go integer (two's
complement), e.g. `uint32(v)` for `v : int32`. -/
def bitsOfInt (w : Nat) (v : Int) : Nat :=
  (v % (2 ^ w : Nat)).toNat

/-- Reading bytes `i, i+1` of `l` as an unsigned little-endian 16-bit
value (`uint16(data[i]) | uint16(data[i+1])<<8`).  Callers perform the
relevant bounds checks separately, exactly where the Go source does. -/
def le16 (l : List Nat) (i : Nat) : Nat :=
  l.getD i 0 + 256 * l.getD (i + 1) 0

/-- Reading bytes `i..i+3` of `l` as an unsigned little-endian 32-bit
value (`uint32(data[i]) | … | uint32(data[i+3])<<24`). -/
def le32 (l : List Nat) (i : Nat) : Nat :=
  l.getD i 0 + 256 * l.getD (i + 1) 0 + 65536 * l.getD (i + 2) 0 +
    16777216 * l.getD (i + 3) 0

/-- Reading bytes `i..i+7` of `l` as an unsigned little-endian 64-bit
value. -/
def le64 (l : List Nat) (i : Nat) : Nat :=
  le32 l i + 4294967296 * le32 l (i + 4)

/-- Two's-complement reinterpretation of a `w`-bit unsigned value as a
signed integer; this is the net effect of Go's
`int16(b0) | int16(b1)<<8`-style reads (the shifts wrap in `intN`). -/
def toSigned (w : Nat) (n : Nat) : Int :=
  if n < 2 ^ (w - 1) then (n : Int) else (n : Int) - (2 ^ w : Nat)

/-- Semantics of `data[a:b]` on a Go slice whose capacity equals its length, in the
in-bounds case.  Out-of-bounds slicing panics in Go; decoder branches
below test the bound explicitly and surface `DOut.panics` when the Go
expression would panic. -/
def sliceD (l : List Nat) (a b : Nat) : List Nat :=
  (l.drop a).take (b - a)

/-! ### The value model -/

/-- The concrete value structs of `container/values`, plus
`baseNull`, a bare `core.BaseValue` holding a `NullValue` tag (what
`core.NewBaseValue("", NullValue, nil)` builds and `GetChild` returns
for an absent child).  Names and string/bytes payloads are byte lists;
float payloads are IEEE bit patterns. -/
inductive GoVal where
  | nullVal (name : List Nat)
  | baseNull (name : List Nat)
  | boolVal (name : List Nat) (b : Bool)
  | int16Val (name : List Nat) (v : Int)
  | uint16Val (name : List Nat) (v : Nat)
  | int32Val (name : List Nat) (v : Int)
  | uint32Val (name : List Nat) (v : Nat)
  | longVal (name : List Nat) (v : Int)
  | ulongVal (name : List Nat) (v : Nat)
  | int64Val (name : List Nat) (v : Int)
  | uint64Val (name : List Nat) (v : Nat)
  | float32Val (name : List Nat) (bits : Nat)
  | float64Val (name : List Nat) (bits : Nat)
  | bytesVal (name : List Nat) (d : List Nat)
  | stringVal (name : List Nat) (s : List Nat)
  | containerVal (name : List Nat) (children : List GoVal)
  | arrayVal (name : List Nat) (elements : List GoVal)
  deriving Repr

/-- Accessor `Value.Name()`. -/
def GoVal.nameOf : GoVal → List Nat
  | .nullVal n | .baseNull n | .boolVal n _ | .int16Val n _
  | .uint16Val n _ | .int32Val n _ | .uint32Val n _ | .longVal n _
  | .ulongVal n _ | .int64Val n _ | .uint64Val n _ | .float32Val n _
  | .float64Val n _ | .bytesVal n _ | .stringVal n _
  | .containerVal n _ | .arrayVal n _ => n

/-- Accessor `Value.Type()`: the `ValueType` tag each constructor passes to
`core.NewBaseValue`. -/
def GoVal.typeOf : GoVal → ValueType
  | .nullVal _ => .NullValue
  | .baseNull _ => .NullValue
  | .boolVal _ _ => .BoolValue
  | .int16Val _ _ => .ShortValue
  | .uint16Val _ _ => .UShortValue
  | .int32Val _ _ => .IntValue
  | .uint32Val _ _ => .UIntValue
  | .longVal _ _ => .LongValue
  | .ulongVal _ _ => .ULongValue
  | .int64Val _ _ => .LLongValue
  | .uint64Val _ _ => .ULLongValue
  | .float32Val _ _ => .FloatValue
  | .float64Val _ _ => .DoubleValue
  | .bytesVal _ _ => .BytesValue
  | .stringVal _ _ => .StringValue
  | .containerVal _ _ => .ContainerValue
  | .arrayVal _ _ => .ArrayValue

/-- The `data []byte` field each constructor stores into the embedded
`core.BaseValue` (`NewBoolValue` stores one byte, `NewInt32Value`
stores 4 little-endian bytes, `NewStringValue` stores the UTF-8 bytes,
composite constructors store `nil`, …). -/
def baseData : GoVal → List Nat
  | .nullVal _ => []
  | .baseNull _ => []
  | .boolVal _ b => [if b then 1 else 0]
  | .int16Val _ v => u16le (bitsOfInt 16 v)
  | .uint16Val _ v => u16le v
  | .int32Val _ v => u32le (bitsOfInt 32 v)
  | .uint32Val _ v => u32le v
  | .longVal _ v => u32le (bitsOfInt 32 v)
  | .ulongVal _ v => u32le v
  | .int64Val _ v => u64le (bitsOfInt 64 v)
  | .uint64Val _ v => u64le v
  | .float32Val _ bits => u32le bits
  | .float64Val _ bits => u64le bits
  | .bytesVal _ d => d
  | .stringVal _ s => s
  | .containerVal _ _ => []
  | .arrayVal _ _ => []

mutual

/-- The `ToBytes` dispatch of the source.  `BoolValue.ToBytes`,
`BytesValue.ToBytes`, `StringValue.ToBytes` and
`ArrayValue.ToBytes` (via `ToBinaryBytes`) emit the complete
`[type:1][name_len:4 LE][name][value_size:4 LE][payload]` buffer; all
remaining types inherit `core.BaseValue.ToBytes`, which returns `v.data`
— the raw payload stored at construction, with no header.  None of the
Go implementations can return a non-nil error, so the embedding is a
total function. -/
def GoVal.ToBytes : GoVal → List Nat
  | .boolVal name b =>
      ValueType.code .BoolValue :: u32le name.length ++ name ++
        u32le 1 ++ [if b then 1 else 0]
  | .bytesVal name d =>
      ValueType.code .BytesValue :: u32le name.length ++ name ++
        u32le d.length ++ d
  | .stringVal name s =>
      ValueType.code .StringValue :: u32le name.length ++ name ++
        u32le s.length ++ s
  | .arrayVal name elems =>
      let eb := GoVal.toBytesList elems
      ValueType.code .ArrayValue :: u32le name.length ++ name ++
        u32le (4 + eb.length) ++ u32le elems.length ++ eb
  | v => baseData v

/-- Element loop of `ToBinaryBytes`: serialize each element with its own
`ToBytes` and concatenate. -/
def GoVal.toBytesList : List GoVal → List Nat
  | [] => []
  | v :: vs => GoVal.ToBytes v ++ GoVal.toBytesList vs

end

/-! ### The decoder (`container/values/array_value.go`) -/

/-- Decode failures, one constructor per `fmt.Errorf` site of the
decoder in `array_value.go`. -/
inductive GoErr where
  | emptyData
  | insufficientData (kind : ValueType)
  | dataTooShort (kind : ValueType)
  | unsupportedType (tag : Nat)
  | arrayDataTooShort (n : Nat)
  | expectedArrayType (tag : Nat)
  | nameExceedsBounds (nameLen : Nat)
  | insufficientValueSize
  | insufficientCount
  | unexpectedEndOfData (elem : Nat) (count : Nat)
  | elementFailed (index : Nat) (e : GoErr)
  deriving DecidableEq, Repr

/-- Result of running a decoder on Go: a value, an explicit error, or a
runtime panic (an out-of-bounds slice/index the source performs without
a preceding check). -/
inductive DOut (α : Type) where
  | ok (a : α)
  | fail (e : GoErr)
  | panics
  deriving Repr

/-- Embeds `deserializeValue` from `array_value.go`: the single-value factory,
dispatching on the leading type byte and returning the decoded value
together with the number of bytes consumed.  The `if … then .panics`
tests reproduce exactly the slice/index expressions the Go source
performs without a preceding bounds check; each branch's explicit
length checks are translated verbatim before them. -/
def deserializeValue (data : List Nat) : DOut (GoVal × Nat) :=
  match data with
  | [] => .fail .emptyData
  | t :: _ =>
    if t = 1 then
      -- BoolValue: fully guarded (`len < 10`, then the combined check).
      if data.length < 10 then .fail (.insufficientData .BoolValue)
      else
        let nameLen := le32 data 1
        if 5 + nameLen + 4 + 1 > data.length then
          .fail (.dataTooShort .BoolValue)
        else
          let name := sliceD data 5 (5 + nameLen)
          let off := 5 + nameLen + 4
          .ok (.boolVal name (data.getD off 0 != 0), off + 1)
    else if t = 2 then
      -- Int16Value: fully guarded.
      if data.length < 11 then .fail (.insufficientData .ShortValue)
      else
        let nameLen := le32 data 1
        if 5 + nameLen + 4 + 2 > data.length then
          .fail (.dataTooShort .ShortValue)
        else
          let name := sliceD data 5 (5 + nameLen)
          let off := 5 + nameLen + 4
          .ok (.int16Val name (toSigned 16 (le16 data off)), off + 2)
    else if t = 3 then
      -- UInt16Value: fully guarded.
      if data.length < 11 then .fail (.insufficientData .UShortValue)
      else
        let nameLen := le32 data 1
        if 5 + nameLen + 4 + 2 > data.length then
          .fail (.dataTooShort .UShortValue)
        else
          let name := sliceD data 5 (5 + nameLen)
          let off := 5 + nameLen + 4
          .ok (.uint16Val name (le16 data off), off + 2)
    else if t = 4 then
      -- IntValue: only the `len < 13` guard; the name slice and the
      -- 4 value-byte reads are unchecked in the source.
      if data.length < 13 then .fail (.insufficientData .IntValue)
      else
        let nameLen := le32 data 1
        if 5 + nameLen > data.length then .panics
        else
          let name := sliceD data 5 (5 + nameLen)
          let off := 5 + nameLen + 4
          if off + 4 > data.length then .panics
          else .ok (.int32Val name (toSigned 32 (le32 data off)), off + 4)
    else if t = 5 then
      -- UInt32Value: same unchecked shape as IntValue.
      if data.length < 13 then .fail (.insufficientData .UIntValue)
      else
        let nameLen := le32 data 1
        if 5 + nameLen > data.length then .panics
        else
          let name := sliceD data 5 (5 + nameLen)
          let off := 5 + nameLen + 4
          if off + 4 > data.length then .panics
          else .ok (.uint32Val name (le32 data off), off + 4)
    else if t = 8 then
      -- Int64Value: `len < 17` guard only.
      if data.length < 17 then .fail (.insufficientData .LLongValue)
      else
        let nameLen := le32 data 1
        if 5 + nameLen > data.length then .panics
        else
          let name := sliceD data 5 (5 + nameLen)
          let off := 5 + nameLen + 4
          if off + 8 > data.length then .panics
          else .ok (.int64Val name (toSigned 64 (le64 data off)), off + 8)
    else if t = 9 then
      -- UInt64Value.
      if data.length < 17 then .fail (.insufficientData .ULLongValue)
      else
        let nameLen := le32 data 1
        if 5 + nameLen > data.length then .panics
        else
          let name := sliceD data 5 (5 + nameLen)
          let off := 5 + nameLen + 4
          if off + 8 > data.length then .panics
          else .ok (.uint64Val name (le64 data off), off + 8)
    else if t = 10 then
      -- Float32Value: bit pattern via `math.Float32frombits`.
      if data.length < 13 then .fail (.insufficientData .FloatValue)
      else
        let nameLen := le32 data 1
        if 5 + nameLen > data.length then .panics
        else
          let name := sliceD data 5 (5 + nameLen)
          let off := 5 + nameLen + 4
          if off + 4 > data.length then .panics
          else .ok (.float32Val name (le32 data off), off + 4)
    else if t = 11 then
      -- Float64Value.
      if data.length < 17 then .fail (.insufficientData .DoubleValue)
      else
        let nameLen := le32 data 1
        if 5 + nameLen > data.length then .panics
        else
          let name := sliceD data 5 (5 + nameLen)
          let off := 5 + nameLen + 4
          if off + 8 > data.length then .panics
          else .ok (.float64Val name (le64 data off), off + 8)
    else if t = 12 then
      -- BytesValue: `len < 13` guard; the name slice, the value_size
      -- read and the payload slice are all unchecked in the source.
      if data.length < 13 then .fail (.insufficientData .BytesValue)
      else
        let nameLen := le32 data 1
        if 5 + nameLen > data.length then .panics
        else
          let name := sliceD data 5 (5 + nameLen)
          let off := 5 + nameLen
          if off + 4 > data.length then .panics
          else
            let valueSize := le32 data off
            if off + 4 + valueSize > data.length then .panics
            else
              .ok (.bytesVal name (sliceD data (off + 4) (off + 4 + valueSize)),
                off + 4 + valueSize)
    else if t = 13 then
      -- StringValue: same unchecked shape as BytesValue.
      if data.length < 13 then .fail (.insufficientData .StringValue)
      else
        let nameLen := le32 data 1
        if 5 + nameLen > data.length then .panics
        else
          let name := sliceD data 5 (5 + nameLen)
          let off := 5 + nameLen
          if off + 4 > data.length then .panics
          else
            let valueSize := le32 data off
            if off + 4 + valueSize > data.length then .panics
            else
              .ok (.stringVal name (sliceD data (off + 4) (off + 4 + valueSize)),
                off + 4 + valueSize)
    else
      -- default: includes tags 0, 6, 7, 14, 15 and everything ≥ 16.
      .fail (.unsupportedType t)

/-- The element loop of `DeserializeArrayValue`: decode `remaining`
more elements starting at `offset`; `total` is the declared count (used
in the error message `element %d/%d`). -/
def deserializeElems (data : List Nat) (total : Nat) :
    Nat → Nat → DOut (List GoVal × Nat)
  | 0, offset => .ok ([], offset)
  | r + 1, offset =>
    let i := total - (r + 1)
    if offset ≥ data.length then .fail (.unexpectedEndOfData (i + 1) total)
    else
      match deserializeValue (data.drop offset) with
      | .panics => .panics
      | .fail e => .fail (.elementFailed i e)
      | .ok (v, consumed) =>
        match deserializeElems data total r (offset + consumed) with
        | .ok (vs, off) => .ok (v :: vs, off)
        | .fail e => .fail e
        | .panics => .panics

/-- Embeds `DeserializeArrayValue` from `array_value.go`: checks the header,
reads (and discards) `value_size`, reads the element count and decodes
exactly `count` elements. -/
def DeserializeArrayValue (data : List Nat) : DOut GoVal :=
  if data.length < 13 then .fail (.arrayDataTooShort data.length)
  else
    let t := data.getD 0 0
    if t ≠ ValueType.code .ArrayValue then .fail (.expectedArrayType t)
    else
      let nameLen := le32 data 1
      if 5 + nameLen > data.length then .fail (.nameExceedsBounds nameLen)
      else
        let name := sliceD data 5 (5 + nameLen)
        let off := 5 + nameLen
        if off + 4 > data.length then .fail .insufficientValueSize
        else
          -- value_size is read here and explicitly ignored
          -- (`_ = valueSize` in the source).
          let off := off + 4
          if off + 4 > data.length then .fail .insufficientCount
          else
            let count := le32 data off
            match deserializeElems data count count (off + 4) with
            | .ok (elems, _) => .ok (.arrayVal name elems)
            | .fail e => .fail e
            | .panics => .panics

/-! ### Range-checked compat constructors (`numeric_value.go`) -/

/-- The `int32Min` constant of `numeric_value.go`. -/
def int32Min : Int := -2147483648

/-- The `int32Max` constant of `numeric_value.go`. -/
def int32Max : Int := 2147483647

/-- The `uint32Max` constant of `numeric_value.go`. -/
def uint32Max : Nat := 4294967295

/-- The range error of `NewLongValue`/`NewULongValue`: it names the
offending value and the wider variant the message suggests
(`"Use Int64Value for 64-bit values"` / `"Use UInt64Value …"`). -/
inductive RangeErr where
  | longRange (offending : Int) (suggested : ValueType)
  | ulongRange (offending : Nat) (suggested : ValueType)
  deriving DecidableEq, Repr

/-- Embeds `NewLongValue`: builds a `LongValue` (wire type 6) from an `int64`
input, enforcing the strict 32-bit range policy. -/
def NewLongValue (name : List Nat) (value : Int) : Except RangeErr GoVal :=
  if value < int32Min ∨ value > int32Max then
    .error (.longRange value .LLongValue)
  else
    .ok (.longVal name value)

/-- Embeds `NewULongValue`: builds a `ULongValue` (wire type 7) from a
`uint64` input, enforcing the strict `[0, uint32Max]` policy. -/
def NewULongValue (name : List Nat) (value : Nat) : Except RangeErr GoVal :=
  if value > uint32Max then
    .error (.ulongRange value .ULLongValue)
  else
    .ok (.ulongVal name value)

/-! ### Type-narrowing conversions -/

/-- Failures of the `ToX` conversions: the `BaseValue` default returns
`"cannot convert null_value to X"` when the tag is `NullValue`, and
`"type conversion not supported"` otherwise. -/
inductive ConvErr where
  | nullConversion
  | notSupported
  deriving DecidableEq, Repr

/-- ASCII bytes of `"true"`. -/
def trueBytes : List Nat := [116, 114, 117, 101]

/-- ASCII bytes of `"false"`. -/
def falseBytes : List Nat := [102, 97, 108, 115, 101]

/-- ASCII bytes of `"null"`. -/
def nullBytes : List Nat := [110, 117, 108, 108]

/-- One base64 alphabet character (standard encoding), as an ASCII
code. -/
def b64char (n : Nat) : Nat :=
  if n < 26 then 65 + n
  else if n < 52 then 97 + (n - 26)
  else if n < 62 then 48 + (n - 52)
  else if n = 62 then 43
  else 47

/-- Embeds `base64.StdEncoding.EncodeToString`, used by
`BytesValue.ToString`. -/
def base64encode : List Nat → List Nat
  | b1 :: b2 :: b3 :: rest =>
      b64char (b1 / 4) :: b64char (b1 % 4 * 16 + b2 / 16) ::
        b64char (b2 % 16 * 4 + b3 / 64) :: b64char (b3 % 64) ::
          base64encode rest
  | [b1, b2] =>
      [b64char (b1 / 4), b64char (b1 % 4 * 16 + b2 / 16),
       b64char (b2 % 16 * 4), 61]
  | [b1] => [b64char (b1 / 4), b64char (b1 % 4 * 16), 61, 61]
  | [] => []

/-- The result of `ToFloat64`, keeping IEEE bit-level provenance: a
`Float64Value` returns its own bits, a `Float32Value` returns its bits
widened by Go's `float64(v.value)` conversion (injective, left
symbolic — the codec never computes with it). -/
inductive F64Result where
  | fromF64 (bits : Nat)
  | widenedFromF32 (bits : Nat)
  deriving DecidableEq, Repr

/-- The `BaseValue` default for each failing conversion. -/
def baseConvErr (v : GoVal) : ConvErr :=
  if v.typeOf = .NullValue then .nullConversion else .notSupported

/-- Conversion `ToBool`: only `BoolValue` overrides it. -/
def GoVal.ToBool : GoVal → Except ConvErr Bool
  | .boolVal _ b => .ok b
  | v => .error (baseConvErr v)

/-- Conversion `ToInt16`: only `Int16Value` overrides it. -/
def GoVal.ToInt16 : GoVal → Except ConvErr Int
  | .int16Val _ v => .ok v
  | v => .error (baseConvErr v)

/-- Conversion `ToUInt16`: only `UInt16Value` overrides it. -/
def GoVal.ToUInt16 : GoVal → Except ConvErr Nat
  | .uint16Val _ v => .ok v
  | v => .error (baseConvErr v)

/-- Conversion `ToInt32`: overridden by `BoolValue` (false→0, true→1),
`Int16Value` (widen), `Int32Value` and `LongValue`. -/
def GoVal.ToInt32 : GoVal → Except ConvErr Int
  | .boolVal _ b => .ok (if b then 1 else 0)
  | .int16Val _ v => .ok v
  | .int32Val _ v => .ok v
  | .longVal _ v => .ok v
  | v => .error (baseConvErr v)

/-- Conversion `ToUInt32`: overridden by `UInt16Value`, `UInt32Value`,
`ULongValue`. -/
def GoVal.ToUInt32 : GoVal → Except ConvErr Nat
  | .uint16Val _ v => .ok v
  | .uint32Val _ v => .ok v
  | .ulongVal _ v => .ok v
  | v => .error (baseConvErr v)

/-- Conversion `ToInt64`: overridden by `BoolValue`, `Int16Value`, `Int32Value`,
`LongValue`, `Int64Value`. -/
def GoVal.ToInt64 : GoVal → Except ConvErr Int
  | .boolVal _ b => .ok (if b then 1 else 0)
  | .int16Val _ v => .ok v
  | .int32Val _ v => .ok v
  | .longVal _ v => .ok v
  | .int64Val _ v => .ok v
  | v => .error (baseConvErr v)

/-- Conversion `ToUInt64`: overridden by `UInt16Value`, `UInt32Value`,
`ULongValue`, `UInt64Value`. -/
def GoVal.ToUInt64 : GoVal → Except ConvErr Nat
  | .uint16Val _ v => .ok v
  | .uint32Val _ v => .ok v
  | .ulongVal _ v => .ok v
  | .uint64Val _ v => .ok v
  | v => .error (baseConvErr v)

/-- Conversion `ToFloat32`: only `Float32Value` overrides it (bit pattern). -/
def GoVal.ToFloat32 : GoVal → Except ConvErr Nat
  | .float32Val _ bits => .ok bits
  | v => .error (baseConvErr v)

/-- Conversion `ToFloat64`: overridden by `Float32Value` (widen) and
`Float64Value`. -/
def GoVal.ToFloat64 : GoVal → Except ConvErr F64Result
  | .float32Val _ bits => .ok (.widenedFromF32 bits)
  | .float64Val _ bits => .ok (.fromF64 bits)
  | v => .error (baseConvErr v)

/-- Conversion `ToString`: overridden by `BoolValue` ("true"/"false"),
`BytesValue` (base64), `StringValue` (the value) and `NullValue`
("null"); the `BaseValue` default returns `("", nil)` — success with
the empty string — when the tag is `NullValue`, and a
`notSupported` error otherwise. -/
def GoVal.ToString : GoVal → Except ConvErr (List Nat)
  | .boolVal _ b => .ok (if b then trueBytes else falseBytes)
  | .bytesVal _ d => .ok (base64encode d)
  | .stringVal _ s => .ok s
  | .nullVal _ => .ok nullBytes
  | .baseNull _ => .ok []
  | v => .error (baseConvErr v)

/-! ### Container child lookup -/

/-- The loop of `ContainerValue.GetChild` (identical to
`ValueContainer.GetValue`): walk the children in insertion order,
counting those whose name matches, and return the one whose running
count equals `index`. -/
def getChildLoop (name : List Nat) (index : Int) :
    List GoVal → Int → GoVal
  | [], _ => .baseNull []
  | c :: cs, count =>
    if c.nameOf = name then
      if count = index then c else getChildLoop name index cs (count + 1)
    else
      getChildLoop name index cs count

/-- Embeds `ContainerValue.GetChild(name, index)`: the `index`-th (0-based)
child named `name`, or `core.NewBaseValue("", NullValue, nil)` when no
such occurrence exists. -/
def GetChild (children : List GoVal) (name : List Nat) (index : Int) : GoVal :=
  getChildLoop name index children 0

/-! ### Concrete inputs used by the theorems -/

/-- ASCII bytes of `"numbers"`, the array name used by the repository's
own `TestArrayValueBinaryRoundtrip`. -/
def numbersName : List Nat := [110, 117, 109, 98, 101, 114, 115]

/-- The array the repository's `TestArrayValueBinaryRoundtrip` builds:
`ArrayValue("numbers")` holding `Int32Value("", 1..3)`. -/
def numbersArray : GoVal :=
  .arrayVal numbersName [.int32Val [] 1, .int32Val [] 2, .int32Val [] 3]

/-- ASCII bytes of `"hello"`. -/
def helloBytes : List Nat := [104, 101, 108, 108, 111]

/-- A complete encoding of one `BoolValue("", true)` (10 bytes). -/
def boolElemBytes : List Nat := GoVal.ToBytes (.boolVal [] true)

/-- An `ArrayValue` wire buffer with empty name, declared
`value_size = 999`, and element count 0 — the payload length field
disagrees with the actual payload (4 bytes of count, 0 element
bytes). -/
def payloadLenMismatchBuf : List Nat :=
  [15] ++ [0, 0, 0, 0] ++ [231, 3, 0, 0] ++ [0, 0, 0, 0]

/-- An `ArrayValue` wire buffer declaring element count 3 whose payload
holds only 2 fully-encoded `BoolValue` elements. -/
def threeDeclaredTwoPresentBuf : List Nat :=
  [15] ++ [0, 0, 0, 0] ++ [24, 0, 0, 0] ++ [3, 0, 0, 0] ++
    boolElemBytes ++ boolElemBytes

/-- The same buffer with an honest element count of 2. -/
def twoDeclaredTwoPresentBuf : List Nat :=
  [15] ++ [0, 0, 0, 0] ++ [24, 0, 0, 0] ++ [2, 0, 0, 0] ++
    boolElemBytes ++ boolElemBytes

/-- Children of a demonstration container: two values named `"a"`
(0x61), one named `"b"`, then a third `"a"`. -/
def demoChildren : List GoVal :=
  [.stringVal [97] [120], .int32Val [97] 7, .boolVal [98] true,
   .int32Val [97] 9]

/-! ### Theorems for the claims -/

/-- C1.  The claimed round-trip `decode(encode(v)) == (v, len(encode(v)))`
fails on the code.  Encoding the repository's own round-trip test value
— `ArrayValue("numbers")` with three `Int32Value` elements — produces a
buffer whose element region holds the elements' raw 4-byte payloads
(`Int32Value` inherits `core.BaseValue.ToBytes`, which emits no
header), so the decoder misreads the first payload byte `1` as a Bool
type tag and fails; and even a properly-headed nested array fails
because `deserializeValue` has no case for type 15.  The code
contradicts both the spec and its own tests
(`TestArrayValueBinaryRoundtrip`), which expect these round-trips to
succeed. -/
theorem roundtrip_fails_on_int32_array :
    DeserializeArrayValue (GoVal.ToBytes numbersArray) =
      .fail (.elementFailed 0 (.dataTooShort .BoolValue)) ∧
    DeserializeArrayValue (GoVal.ToBytes (.arrayVal [] [.arrayVal [] []])) =
      .fail (.elementFailed 0 (.unsupportedType 15)) :=
  ⟨rfl, rfl⟩

/-- C2.  Truncation safety fails on the code: `encode(StringValue("",
"hello"))` is a valid 14-byte buffer (the third conjunct shows the full
buffer decodes), yet decoding its 13-byte proper prefix reaches the
unchecked slice `data[offset : offset+int(valueSize)]` in the
StringValue branch of `deserializeValue` and panics (slice bounds out
of range) instead of returning a bounds error. -/
theorem truncated_string_prefix_panics :
    deserializeValue ((GoVal.ToBytes (.stringVal [] helloBytes)).take 13) =
      .panics ∧
    (GoVal.ToBytes (.stringVal [] helloBytes)).length = 14 ∧
    deserializeValue (GoVal.ToBytes (.stringVal [] helloBytes)) =
      .ok (.stringVal [] helloBytes, 14) :=
  ⟨rfl, rfl, rfl⟩

/-- C3.  The wire-header claim fails for the fixed-width numeric
scalars: `Int32Value` (like all numeric kinds, `NullValue` and
`ContainerValue`) inherits `core.BaseValue.ToBytes` and encodes to its
raw 4-byte little-endian payload only — no kind byte (the first byte
here is 0xFA, not the Int32 wire code 4), no name, no lengths —
whatever the name.  The repository's own
`TestBinaryCompatibility_PrimitiveTypes` expects a full header for
exactly this value. -/
theorem int32_tobytes_lacks_wire_header :
    ∀ name : List Nat,
      GoVal.ToBytes (.int32Val name (-987654)) = [250, 237, 240, 255] :=
  fun _ => rfl

/-- C4 counterexample.  `DeserializeArrayValue` accepts a buffer whose
declared `value_size` (999) bears no relation to the bytes its children
actually consume (0 element bytes): the claim that decoding "succeeds
only if the bytes consumed by those children exactly equal the declared
payload_len" is false — the source reads `value_size` and discards it
(`_ = valueSize`). -/
theorem array_decode_ignores_declared_payload_len :
    DeserializeArrayValue payloadLenMismatchBuf = .ok (.arrayVal [] []) :=
  rfl

/-- C4 amended.  After reading the count, the decoder does invoke
itself once per declared element and an exhausted payload is caught:
the count-3-with-2-elements buffer fails with the decoder's
unexpected-end-of-data error (element 3/3) rather than short-reading
silently, while the honest count-2 version of the same bytes decodes
to both elements.  Only the `CorruptComposite` consumed-vs-payload_len
comparison of the claim is absent (see the counterexample). -/
theorem array_decode_count_mismatch_end_of_data :
    DeserializeArrayValue threeDeclaredTwoPresentBuf =
      .fail (.unexpectedEndOfData 3 3) ∧
    DeserializeArrayValue twoDeclaredTwoPresentBuf =
      .ok (.arrayVal [] [.boolVal [] true, .boolVal [] true]) :=
  ⟨rfl, rfl⟩

/-- C5.  Any buffer whose leading byte is outside the defined wire
codes 0–15 (in particular ≥ 16) makes `deserializeValue` fall through
to the default branch and fail with the unknown-type error carrying
that byte; it is never silently mapped to a Null value. -/
theorem unknown_kind_byte_fails (data : List Nat) (b : Nat)
    (h1 : data.head? = some b) (h2 : 16 ≤ b) :
    deserializeValue data = .fail (.unsupportedType b) := by
  cases data with
  | nil => simp at h1
  | cons t rest =>
    have ht : t = b := by simpa using h1
    subst ht
    have hne : ∀ k : Nat, k < 16 → ¬ (t = k) := fun k hk heq => by omega
    simp only [deserializeValue]
    repeat rw [if_neg (hne _ (by norm_num))]

/-- Witness for C5: the one-byte buffer `[16]` fails with the
unknown-type error for 16. -/
theorem unknown_kind_byte_fails_witness :
    deserializeValue [16] = .fail (.unsupportedType 16) :=
  unknown_kind_byte_fails [16] 16 rfl (by norm_num)

/-- C6.  The compat 32-bit constructors enforce the range policy of
`numeric_value.go`: `NewLongValue` succeeds exactly on
`[int32Min, int32Max]` and then stores a 4-byte payload, failing
otherwise with the range error that names the offending value and
suggests `Int64Value` (wire kind `LLongValue`); `NewULongValue` is the
symmetric unsigned case on `[0, uint32Max]`, suggesting
`UInt64Value`. -/
theorem compat_long_range_policy (name : List Nat) (v : Int) (u : Nat) :
    (int32Min ≤ v ∧ v ≤ int32Max →
      NewLongValue name v = .ok (.longVal name v) ∧
        (baseData (.longVal name v)).length = 4) ∧
    (v < int32Min ∨ int32Max < v →
      NewLongValue name v = .error (.longRange v .LLongValue)) ∧
    (u ≤ uint32Max →
      NewULongValue name u = .ok (.ulongVal name u) ∧
        (baseData (.ulongVal name u)).length = 4) ∧
    (uint32Max < u →
      NewULongValue name u = .error (.ulongRange u .ULLongValue)) := by
  refine ⟨fun h => ?_, fun h => ?_, fun h => ?_, fun h => ?_⟩
  · exact ⟨by rw [NewLongValue, if_neg (by omega)], rfl⟩
  · rw [NewLongValue, if_pos (by omega)]
  · exact ⟨by rw [NewULongValue, if_neg (by omega)], rfl⟩
  · rw [NewULongValue, if_pos (by omega)]

/-- Witness for C6: the boundary values INT32_MAX, INT32_MAX + 1,
UINT32_MAX and UINT32_MAX + 1. -/
theorem compat_long_range_policy_witness :
    NewLongValue [] 2147483647 = .ok (.longVal [] 2147483647) ∧
    NewLongValue [] 2147483648 =
      .error (.longRange 2147483648 .LLongValue) ∧
    NewULongValue [] 4294967295 = .ok (.ulongVal [] 4294967295) ∧
    NewULongValue [] 4294967296 =
      .error (.ulongRange 4294967296 .ULLongValue) :=
  ⟨((compat_long_range_policy [] 2147483647 0).1
      ⟨by norm_num [int32Min], by norm_num [int32Max]⟩).1,
   (compat_long_range_policy [] 2147483648 0).2.1
      (Or.inr (by norm_num [int32Max])),
   ((compat_long_range_policy [] 0 4294967295).2.2.1
      (by norm_num [uint32Max])).1,
   (compat_long_range_policy [] 0 4294967296).2.2.2
      (by norm_num [uint32Max])⟩

/-- C7 counterexample.  `ToString` on a Null-kind value does NOT fail:
`NullValue.ToString` returns `("null", nil)` — success — so the claim
that every listed conversion (including `ToString`) fails with a
null-conversion error is false. -/
theorem null_tostring_succeeds :
    GoVal.ToString (.nullVal []) = .ok nullBytes :=
  rfl

/-- C7 amended.  On a value whose kind is Null, the nine numeric/bool
narrowing conversions (`ToBool` … `ToFloat64`) all fail with the
null-conversion error, but `ToString` succeeds (returning `"null"`
from `NullValue.ToString`, or `""` from the `BaseValue` default). -/
theorem null_conversions_fail_except_tostring (v : GoVal)
    (h : v.typeOf = .NullValue) :
    v.ToBool = .error .nullConversion ∧
    v.ToInt16 = .error .nullConversion ∧
    v.ToUInt16 = .error .nullConversion ∧
    v.ToInt32 = .error .nullConversion ∧
    v.ToUInt32 = .error .nullConversion ∧
    v.ToInt64 = .error .nullConversion ∧
    v.ToUInt64 = .error .nullConversion ∧
    v.ToFloat32 = .error .nullConversion ∧
    v.ToFloat64 = .error .nullConversion ∧
    ∃ s, v.ToString = .ok s := by
  cases v with
  | nullVal n =>
      exact ⟨rfl, rfl, rfl, rfl, rfl, rfl, rfl, rfl, rfl, nullBytes, rfl⟩
  | baseNull n =>
      exact ⟨rfl, rfl, rfl, rfl, rfl, rfl, rfl, rfl, rfl, [], rfl⟩
  | boolVal n b => simp [GoVal.typeOf] at h
  | int16Val n x => simp [GoVal.typeOf] at h
  | uint16Val n x => simp [GoVal.typeOf] at h
  | int32Val n x => simp [GoVal.typeOf] at h
  | uint32Val n x => simp [GoVal.typeOf] at h
  | longVal n x => simp [GoVal.typeOf] at h
  | ulongVal n x => simp [GoVal.typeOf] at h
  | int64Val n x => simp [GoVal.typeOf] at h
  | uint64Val n x => simp [GoVal.typeOf] at h
  | float32Val n x => simp [GoVal.typeOf] at h
  | float64Val n x => simp [GoVal.typeOf] at h
  | bytesVal n d => simp [GoVal.typeOf] at h
  | stringVal n s => simp [GoVal.typeOf] at h
  | containerVal n c => simp [GoVal.typeOf] at h
  | arrayVal n e => simp [GoVal.typeOf] at h

/-- Witness for the amended C7 at the concrete value
`NullValue("")`. -/
theorem null_conversions_fail_except_tostring_witness :
    (GoVal.nullVal []).ToBool = .error .nullConversion ∧
    (GoVal.nullVal []).ToInt16 = .error .nullConversion ∧
    (GoVal.nullVal []).ToUInt16 = .error .nullConversion ∧
    (GoVal.nullVal []).ToInt32 = .error .nullConversion ∧
    (GoVal.nullVal []).ToUInt32 = .error .nullConversion ∧
    (GoVal.nullVal []).ToInt64 = .error .nullConversion ∧
    (GoVal.nullVal []).ToUInt64 = .error .nullConversion ∧
    (GoVal.nullVal []).ToFloat32 = .error .nullConversion ∧
    (GoVal.nullVal []).ToFloat64 = .error .nullConversion ∧
    ∃ s, (GoVal.nullVal []).ToString = .ok s :=
  null_conversions_fail_except_tostring (.nullVal []) rfl

/-- The loop of `GetChild`, related to a filter of the child list: when
`count ≤ index`, it returns the `(index - count)`-th child (0-based)
among those whose name matches, or the bare Null `BaseValue` if there
are not that many; once `count` has passed `index`, no later child can
match. -/
theorem getChildLoop_spec (name : List Nat) (index : Int) :
    ∀ (cs : List GoVal) (count : Int),
      getChildLoop name index cs count =
        if count ≤ index then
          (cs.filter (fun c => decide (c.nameOf = name))).getD
            (index - count).toNat (.baseNull [])
        else .baseNull [] := by
  intro cs
  induction cs with
  | nil =>
      intro count
      simp [getChildLoop]
  | cons c cs ih =>
      intro count
      by_cases hname : c.nameOf = name
      · by_cases hc : count = index
        · subst hc
          simp [getChildLoop, hname]
        · rw [getChildLoop, if_pos hname, if_neg hc, ih (count + 1)]
          by_cases hle : count ≤ index
          · have hlt : count < index := lt_of_le_of_ne hle hc
            rw [if_pos (by omega), if_pos hle]
            have hn : (index - count).toNat = (index - (count + 1)).toNat + 1 := by
              omega
            simp [hname, hn]
          · rw [if_neg (by omega), if_neg hle]
      · rw [getChildLoop, if_neg hname, ih count]
        by_cases hle : count ≤ index
        · rw [if_pos hle, if_pos hle]
          simp [hname]
        · rw [if_neg hle, if_neg hle]

/-- C8.  `GetChild(name, index)` returns the `index`-th (0-based)
child whose name matches, counting in insertion order (the `index`-th
element of the insertion-ordered filter of the children); when no such
occurrence exists — including any negative index — it returns the bare
`BaseValue` placeholder, which has kind Null and an empty name.  It is
a total function: no error is ever produced. -/
theorem getchild_occurrence_semantics (children : List GoVal)
    (name : List Nat) (index : Int) :
    (0 ≤ index →
      GetChild children name index =
        (children.filter (fun c => decide (c.nameOf = name))).getD
          index.toNat (.baseNull [])) ∧
    (index < 0 → GetChild children name index = .baseNull []) ∧
    (GoVal.baseNull []).typeOf = .NullValue ∧
    (GoVal.baseNull []).nameOf = [] := by
  refine ⟨fun h => ?_, fun h => ?_, rfl, rfl⟩
  · rw [GetChild, getChildLoop_spec name index children 0, if_pos h]
    norm_num
  · rw [GetChild, getChildLoop_spec name index children 0,
      if_neg (by omega)]

/-- Witness for C8: in a container with children named a, a, b, a
(in that order), occurrence 1 of "a" is the second a (the Int32 7),
and looking up an absent name yields the Null placeholder. -/
theorem getchild_occurrence_semantics_witness :
    GetChild demoChildren [97] 1 = .int32Val [97] 7 ∧
    GetChild demoChildren [99] 0 = .baseNull [] := by
  constructor
  · have h := (getchild_occurrence_semantics demoChildren [97] 1).1
      (by norm_num)
    rw [h]; rfl
  · have h := (getchild_occurrence_semantics demoChildren [99] 0).1
      (by norm_num)
    rw [h]; rfl

/-- C9.  `IsNumeric` is true exactly for the contiguous run of wire
codes 2–11: the 16/32/64-bit signed and unsigned integer kinds
(including the 32-bit-compat Long and ULong kinds) and the two float
kinds; it is false for Null, Bool, Bytes, String, Container and
Array. -/
theorem isnumeric_iff_integer_or_float_kind (t : ValueType) :
    IsNumeric t = true ↔
      (t = .ShortValue ∨ t = .UShortValue ∨ t = .IntValue ∨
       t = .UIntValue ∨ t = .LongValue ∨ t = .ULongValue ∨
       t = .LLongValue ∨ t = .ULLongValue ∨ t = .FloatValue ∨
       t = .DoubleValue) := by
  cases t <;> decide

/-- C10.  The Bool codec: decoding a well-formed Bool encoding maps the
single payload byte to true exactly when it is nonzero (the decoder
computes `data[offset] != 0`), while `BoolValue.ToBytes` always emits a
final payload byte of exactly 1 (true) or 0 (false). -/
theorem bool_codec_nonzero_decode_canonical_encode :
    (∀ b : Nat, b < 256 →
      deserializeValue [1, 0, 0, 0, 0, 1, 0, 0, 0, b] =
        .ok (.boolVal [] (b != 0), 10)) ∧
    (∀ (name : List Nat) (v : Bool),
      (GoVal.ToBytes (.boolVal name v)).getLast? =
        some (if v then 1 else 0)) := by
  constructor
  · intro b _
    rfl
  · intro name v
    rw [GoVal.ToBytes, List.getLast?_concat]

/-- Witness for C10: the non-canonical payload byte 7 (nonzero, not 1)
decodes to true. -/
theorem bool_codec_nonzero_decode_canonical_encode_witness :
    deserializeValue [1, 0, 0, 0, 0, 1, 0, 0, 0, 7] =
      .ok (.boolVal [] true, 10) :=
  bool_codec_nonzero_decode_canonical_encode.1 7 (by norm_num)

end GoContainerSystem
